import Mathlib

/-!
Shallow embedding of the Notiphy widget client (`src/components/widget.js` of
`mlacoco/notiphy-widget`), covering the notification store with its derived
counters, the fetch-and-merge logic, the two mutation actions (mark-read and
dismiss), the fetch failure path, and the configuration resolver of the
constructor.  Counters are modelled as `Int` because the widget reads them
back out of DOM text with `parseInt` and clamps decrements with
`Math.max(0, x - 1)`.
-/

namespace Notiphy

/-- Alert levels recognized by the widget; `levelNone` stands for the unset
`none` level of the source. -/
inductive AlertLevel where
  | levelNone
  | primary
  | info
  | success
  | warning
  | error
  | blocker
  deriving DecidableEq, Repr

/-- A notification record as handled by the widget (`id`, `title`, `text`,
`alertLevel`, `read`, the server-side `dismissed` flag carried by fetched
entries, the optional `actionUrl`, and the `_ts` creation timestamp). -/
structure Notification where
  id : Nat
  title : String
  text : String
  alertLevel : AlertLevel
  read : Bool
  dismissed : Bool
  actionUrl : Option String
  ts : Nat
  deriving DecidableEq, Repr

/-- Number of unread entries in a list of notifications. -/
def countUnread (l : List Notification) : Nat :=
  (l.filter (fun e => !e.read)).length

/-- The widget state the counter logic operates on: the list of notification
elements in the notification-center body (newest first, since the source
prepends) together with the displayed unread and total counters. -/
structure StoreState where
  notifs : List Notification
  unread : Int
  total : Int
  deriving DecidableEq, Repr

/-- The initial state: empty center body, both displayed counters at 0. -/
def emptyStore : StoreState :=
  { notifs := [], unread := 0, total := 0 }

/-- `addToNotiphyCenter` (widget.js lines 820-837): prepends the notification
element to the center body, increments the unread counter iff the
notification is unread, and always increments the total counter. -/
def addToNotiphyCenter (s : StoreState) (n : Notification) : StoreState :=
  { notifs := n :: s.notifs
    unread := if n.read then s.unread else s.unread + 1
    total := s.total + 1 }

/-- First notification element with the given id, mirroring
`document.querySelectorAll` on `data-notification-id` followed by taking the
first mark-read button. -/
def findById (l : List Notification) (i : Nat) : Option Notification :=
  l.find? (fun e => e.id == i)

/-- `updateStatsAfterDismissal` (widget.js lines 552-566): decrements the
unread counter (clamped at 0) when the dismissed entry was unread, and always
decrements the total counter (clamped at 0). -/
def updateStatsAfterDismissal (s : StoreState) (isRead : Bool) : StoreState :=
  let s1 := if isRead then s else { s with unread := max 0 (s.unread - 1) }
  { s1 with total := max 0 (s1.total - 1) }

/-- `handleDismissedNotification` (widget.js lines 530-545): a no-op when no
element carries the id; otherwise removes every element with that id from the
center body and updates the counters once, using the read flag of the first
matching element. -/
def handleDismissedNotification (s : StoreState) (i : Nat) : StoreState :=
  match findById s.notifs i with
  | Option.none => s
  | some e =>
      updateStatsAfterDismissal
        { s with notifs := s.notifs.filter (fun x => x.id != i) } e.read

/-- `updateStatsAfterMarkRead` (widget.js lines 572-580): decrements the
unread counter (clamped at 0) unless the entry was already read. -/
def updateStatsAfterMarkRead (s : StoreState) (isRead : Bool) : StoreState :=
  if isRead then s else { s with unread := max 0 (s.unread - 1) }

/-- Sets `read := true` on the first element with the given id (the source
adds the `open` class to the first matching mark-read button). -/
def markFirstRead : List Notification → Nat → List Notification
  | [], _ => []
  | e :: rest, i =>
      if e.id == i then { e with read := true } :: rest
      else e :: markFirstRead rest i

/-- `handleMarkedReadNotification` (widget.js lines 500-524): a no-op when no
element carries the id; otherwise decrements the unread counter (clamped)
unless the entry was already read, and marks the first matching element
read. -/
def handleMarkedReadNotification (s : StoreState) (i : Nat) : StoreState :=
  match findById s.notifs i with
  | Option.none => s
  | some e =>
      let s1 := updateStatsAfterMarkRead s e.read
      { s1 with notifs := markFirstRead s1.notifs i }

/-- The three store mutations of the specification. -/
inductive StoreOp where
  | add (n : Notification)
  | remove (i : Nat)
  | markRead (i : Nat)
  deriving DecidableEq, Repr

/-- One store mutation: `add` is `addToNotiphyCenter`, `remove` is
`handleDismissedNotification`, `markRead` is `handleMarkedReadNotification`. -/
def applyOp (s : StoreState) : StoreOp → StoreState
  | StoreOp.add n => addToNotiphyCenter s n
  | StoreOp.remove i => handleDismissedNotification s i
  | StoreOp.markRead i => handleMarkedReadNotification s i

/-- Runs a sequence of store mutations. -/
def runOps (s : StoreState) (ops : List StoreOp) : StoreState :=
  ops.foldl applyOp s

/-- A run is fresh when every `add` carries an id not already present in the
center body at the moment it is applied. -/
def freshRun : StoreState → List StoreOp → Bool
  | _, [] => true
  | s, StoreOp.add n :: rest =>
      (!(s.notifs.any (fun e => e.id == n.id))) &&
        freshRun (addToNotiphyCenter s n) rest
  | s, StoreOp.remove i :: rest => freshRun (handleDismissedNotification s i) rest
  | s, StoreOp.markRead i :: rest => freshRun (handleMarkedReadNotification s i) rest

/-- `setupPeriodicRefresh` (widget.js lines 159-167): no timer when
`refreshInterval` is 0 (falsy); otherwise a repeating timer with period
`Math.max(300000, refreshInterval * 1000)` milliseconds. -/
def setupPeriodicRefresh (refreshInterval : Nat) : Option Nat :=
  if refreshInterval != 0 then some (max 300000 (refreshInterval * 1000))
  else Option.none

/-- What `handleNotification` decides for one inbound notification: whether
the blocker modal is shown, whether a toast is shown, and the delay in
milliseconds of the timer that inserts the entry into the inbox. -/
structure DeliveryOutcome where
  modalShown : Bool
  toastShown : Bool
  inboxDelayMs : Nat
  inboxScheduled : Bool
  deriving DecidableEq, Repr

/-- `handleNotification` (widget.js lines 452-466): blocker level shows the
modal and keeps the inbox-insertion delay at 0; otherwise a toast is shown
and the delay set to `toastDuration * 1000` only when `toastAlert` is on; the
`setTimeout` inserting into the inbox is scheduled in every case. -/
def handleNotification (toastAlert : Bool) (toastDuration : Nat)
    (n : Notification) : DeliveryOutcome :=
  if n.alertLevel = AlertLevel.blocker then
    { modalShown := true, toastShown := false, inboxDelayMs := 0,
      inboxScheduled := true }
  else if toastAlert then
    { modalShown := false, toastShown := true,
      inboxDelayMs := toastDuration * 1000, inboxScheduled := true }
  else
    { modalShown := false, toastShown := false, inboxDelayMs := 0,
      inboxScheduled := true }

/-- `Map.set` of the merge in `fetchNotifications` (widget.js lines 887-902):
replaces the value of an existing key in place, otherwise appends, matching
the insertion-order semantics of a JavaScript `Map`. -/
def msetById : List Notification → Notification → List Notification
  | [], n => [n]
  | e :: rest, n =>
      if e.id == n.id then n :: rest else e :: msetById rest n

/-- `Map.delete` keyed by notification id. -/
def mdelById (m : List Notification) (i : Nat) : List Notification :=
  m.filter (fun e => e.id != i)

/-- The map built from the locally cached notifications, keyed by id. -/
def buildLocalMap (localNotifications : List Notification) : List Notification :=
  localNotifications.foldl msetById []

/-- One fetched entry applied to the map: delete the key when the entry
carries the dismissed flag, otherwise upsert. -/
def fetchMergeStep (m : List Notification) (n : Notification) : List Notification :=
  if n.dismissed then mdelById m n.id else msetById m n

/-- The merge of `fetchNotifications` (widget.js lines 886-905): build a map
from the local cache keyed by id, fold the fetched entries over it, and take
the values. -/
def mergeNotifications (localNotifications fetchedNotifications : List Notification) :
    List Notification :=
  fetchedNotifications.foldl fetchMergeStep (buildLocalMap localNotifications)

/-- Lookup by id in the value list of the merge map. -/
def lookupById : List Notification → Nat → Option Notification
  | [], _ => Option.none
  | e :: rest, i => if e.id == i then some e else lookupById rest i

/-- Clear-and-rebuild of the notification center after a successful fetch
(widget.js lines 910-916): the center body is emptied, both counters reset to
0, and every merged notification re-added through `addToNotiphyCenter`. -/
def fetchNotificationsSuccess (prior : StoreState)
    (localNotifications fetchedNotifications : List Notification) : StoreState :=
  (mergeNotifications localNotifications fetchedNotifications).foldl
    addToNotiphyCenter { prior with notifs := [], unread := 0, total := 0 }

/-- The pieces of widget state touched by the mark-read and dismiss actions:
the DOM read marker and removal flag of the targeted element, the two
displayed counters, the session-cache flags, and whether the corresponding
realtime event was emitted. -/
structure ActionState where
  domReadMarked : Bool
  domRemoved : Bool
  unread : Int
  total : Int
  cacheReadFlag : Bool
  cacheRemoved : Bool
  emittedMarkRead : Bool
  emittedDismiss : Bool
  deriving DecidableEq, Repr

/-- `markRead` (widget.js lines 966-999): the DOM element is marked read and
the unread counter decremented (clamped at 0) before the backend call; only
when the call resolves does the `.then` callback emit the realtime event and
persist the read flag to the session cache. -/
def markRead (backendOk : Bool) (s : ActionState) : ActionState :=
  let s1 := { s with domReadMarked := true, unread := max 0 (s.unread - 1) }
  if backendOk then { s1 with emittedMarkRead := true, cacheReadFlag := true }
  else s1

/-- `dismissNotification` (widget.js lines 1019-1060): the backend call comes
first; every mutation (counters, DOM removal, cache removal, realtime emit)
happens in the `.then` callback, so nothing changes when the call fails. -/
def dismissNotification (backendOk : Bool) (wasRead : Bool) (s : ActionState) :
    ActionState :=
  if backendOk then
    { s with total := max 0 (s.total - 1)
             unread := if wasRead then s.unread else max 0 (s.unread - 1)
             domRemoved := true
             cacheRemoved := true
             emittedDismiss := true }
  else s

/-- The state the fetch failure path operates on: the notification center
store, the socket (`Option.none` before the Socket.IO script has loaded, else
its connected flag), the audio-reminder setting, the number of fetch requests
issued, and whether an exception escaped to the embedding page. -/
structure SyncState where
  store : StoreState
  socket : Option Bool
  audioReminder : Bool
  fetchCount : Nat
  crashed : Bool
  deriving DecidableEq, Repr

/-- The locally synthesized error notification of `fetchNotifications`
(widget.js lines 866-874). -/
def errorNotification (now : Nat) : Notification :=
  { id := 0
    title := "Notiphy.me API Key Error"
    text := "The Notiphy.me API key provided is invalid. Please check your Notiphy.me dashboard for more information."
    alertLevel := AlertLevel.error
    read := false
    dismissed := false
    actionUrl := some "https://notiphy.me/dashboard/api-keys"
    ts := now }

/-- The non-success branch of `fetchNotifications` (widget.js lines 864-881):
adds the synthesized error notification to the center, then calls
`toggleConnection` — which throws a `TypeError` when the socket does not
exist yet (caught by the surrounding `try`), and otherwise flips the
connection —, then disables audio reminders when they were on (skipped when
the toggle threw), and finally throws an `Error` that the `catch` logs.  No
further fetch is issued and nothing escapes to the caller. -/
def fetchFailurePath (now : Nat) (s : SyncState) : SyncState :=
  let withError := { s with store := addToNotiphyCenter s.store (errorNotification now) }
  match s.socket with
  | Option.none => { withError with crashed := false }
  | some c =>
      let toggled := { withError with socket := some (!c) }
      let reminded :=
        if toggled.audioReminder then { toggled with audioReminder := false }
        else toggled
      { reminded with crashed := false }

/-- The effective widget configuration (`defaultConfig` of the constructor,
widget.js lines 45-64). -/
structure WidgetConfig where
  serviceUrl : String
  subscriberId : Option String
  widgetKey : Option String
  locationId : String
  widgetTitle : String
  audioAlert : Bool
  audioReminder : Bool
  reminderInterval : Nat
  toastAlert : Bool
  toastPosition : String
  toastDuration : Nat
  width : String
  height : String
  showInboxOnLoad : Bool
  refreshInterval : Nat
  branded : Bool
  compact : Bool
  targetElement : Option String
  deriving DecidableEq, Repr

/-- The caller-supplied configuration object: every key optional, missing
keys fall back to the defaults through the spread
`{ ...this.defaultConfig, ...config }`. -/
structure CallerConfig where
  serviceUrl : Option String
  subscriberId : Option String
  widgetKey : Option String
  locationId : Option String
  widgetTitle : Option String
  audioAlert : Option Bool
  audioReminder : Option Bool
  reminderInterval : Option Nat
  toastAlert : Option Bool
  toastPosition : Option String
  toastDuration : Option Nat
  width : Option String
  height : Option String
  showInboxOnLoad : Option Bool
  refreshInterval : Option Nat
  branded : Option Bool
  compact : Option Bool
  targetElement : Option String
  deriving DecidableEq, Repr

/-- The `defaultConfig` table of the constructor. -/
def defaultConfig : WidgetConfig :=
  { serviceUrl := "https://app.notiphy.me"
    subscriberId := Option.none
    widgetKey := Option.none
    locationId := "default"
    widgetTitle := "Inbox"
    audioAlert := false
    audioReminder := false
    reminderInterval := 180
    toastAlert := false
    toastPosition := "bottom-right"
    toastDuration := 4
    width := "300px"
    height := "400px"
    showInboxOnLoad := false
    refreshInterval := 0
    branded := true
    compact := false
    targetElement := Option.none }

/-- A caller-supplied value overriding an optional-valued default. -/
def orElseOpt (o : Option String) (d : Option String) : Option String :=
  match o with
  | some v => some v
  | Option.none => d

/-- The spread merge `{ ...this.defaultConfig, ...config }` producing
`initialConfig`. -/
def mergeConfig (d : WidgetConfig) (c : CallerConfig) : WidgetConfig :=
  { serviceUrl := c.serviceUrl.getD d.serviceUrl
    subscriberId := orElseOpt c.subscriberId d.subscriberId
    widgetKey := orElseOpt c.widgetKey d.widgetKey
    locationId := c.locationId.getD d.locationId
    widgetTitle := c.widgetTitle.getD d.widgetTitle
    audioAlert := c.audioAlert.getD d.audioAlert
    audioReminder := c.audioReminder.getD d.audioReminder
    reminderInterval := c.reminderInterval.getD d.reminderInterval
    toastAlert := c.toastAlert.getD d.toastAlert
    toastPosition := c.toastPosition.getD d.toastPosition
    toastDuration := c.toastDuration.getD d.toastDuration
    width := c.width.getD d.width
    height := c.height.getD d.height
    showInboxOnLoad := c.showInboxOnLoad.getD d.showInboxOnLoad
    refreshInterval := c.refreshInterval.getD d.refreshInterval
    branded := c.branded.getD d.branded
    compact := c.compact.getD d.compact
    targetElement := orElseOpt c.targetElement d.targetElement }

/-- `loadSettings` (widget.js lines 107-121): absent stored settings yield
nothing; otherwise the parsed settings are returned with `locationId`
overwritten by the current invocation's value when it differs. -/
def loadSettings (stored : Option WidgetConfig) (initialConfig : WidgetConfig) :
    Option WidgetConfig :=
  match stored with
  | Option.none => Option.none
  | some parsedSettings =>
      if initialConfig.locationId != parsedSettings.locationId then
        some { parsedSettings with locationId := initialConfig.locationId }
      else some parsedSettings

/-- `checkLocationChange` (widget.js lines 127-133): true when stored
settings exist and their `locationId` differs from the resolved one. -/
def checkLocationChange (stored : Option WidgetConfig) (config : WidgetConfig) :
    Bool :=
  match stored with
  | Option.none => false
  | some storedSettings => config.locationId != storedSettings.locationId

/-- Browser-side persistent state: the durable settings blob
(`notiphySettings` in localStorage), the session notification cache
(`notiphyWidgetNotifications` in sessionStorage), and the last-fetched
watermark (`notiphyWidgetLastFetched`). -/
structure Storage where
  settings : Option WidgetConfig
  cache : Option (List Notification)
  lastFetched : Option Nat
  deriving DecidableEq, Repr

/-- `clearStoredData` (widget.js lines 135-138): drops the session cache and
the watermark, keeps the durable settings. -/
def clearStoredData (st : Storage) : Storage :=
  { st with cache := Option.none, lastFetched := Option.none }

/-- `saveSettings` (widget.js lines 97-100): writes the resolved
configuration to the durable settings blob. -/
def saveSettings (st : Storage) (config : WidgetConfig) : Storage :=
  { st with settings := some config }

/-- JavaScript falsiness of the required string fields: `null`/absent or the
empty string. -/
def isAbsent : Option String → Bool
  | Option.none => true
  | some v => v == ""

/-- The configuration the constructor resolves:
`this.config = this.loadSettings() || this.initialConfig`. -/
def resolvedConfig (st : Storage) (caller : CallerConfig) : WidgetConfig :=
  let initialConfig := mergeConfig defaultConfig caller
  (loadSettings st.settings initialConfig).getD initialConfig

/-- The observable outcome of running the constructor. -/
structure InitOutcome where
  config : WidgetConfig
  storageAfter : Storage
  configError : Bool
  domCreated : Bool
  refreshTimerStarted : Bool
  reminderTimerStarted : Bool
  fetchIssued : Bool
  threw : Bool
  deriving DecidableEq, Repr

/-- The constructor (widget.js lines 44-92): resolve the configuration,
clear the session cache and watermark when the location changed, save the
settings, then validate `subscriberId` and `widgetKey` — reporting an error
and returning before any DOM, timer, or fetch work when either is falsy; in
the success case the DOM is built, the periodic-refresh timer started iff
`refreshInterval` is nonzero, the reminder timer started iff `audioReminder`
is on, and the initial fetch issued. -/
def notiphyConstructor (st : Storage) (caller : CallerConfig) : InitOutcome :=
  let config := resolvedConfig st caller
  let st1 := if checkLocationChange st.settings config then clearStoredData st else st
  let st2 := saveSettings st1 config
  if isAbsent config.subscriberId then
    { config := config, storageAfter := st2, configError := true
      domCreated := false, refreshTimerStarted := false
      reminderTimerStarted := false, fetchIssued := false, threw := false }
  else if isAbsent config.widgetKey then
    { config := config, storageAfter := st2, configError := true
      domCreated := false, refreshTimerStarted := false
      reminderTimerStarted := false, fetchIssued := false, threw := false }
  else
    { config := config, storageAfter := st2, configError := false
      domCreated := true
      refreshTimerStarted := config.refreshInterval != 0
      reminderTimerStarted := config.audioReminder
      fetchIssued := true, threw := false }

/-! ### Claim C7: periodic refresh clamping -/

/-- C7: with `refreshInterval = 0` no periodic refresh timer is created, and
with a nonzero `refreshInterval` the timer period is
`max 300 refreshInterval` seconds (stored in milliseconds); in particular
`refreshInterval = 60` yields a 300-second (300000 ms) period. -/
theorem setupPeriodicRefresh_clamped (ri : Nat) (h : ri ≠ 0) :
    setupPeriodicRefresh 0 = Option.none ∧
    setupPeriodicRefresh ri = some (max 300 ri * 1000) ∧
    setupPeriodicRefresh 60 = some 300000 := by
  refine ⟨rfl, ?_, rfl⟩
  have hb : (ri != 0) = true := by simpa using h
  have hmax : max 300000 (ri * 1000) = max 300 ri * 1000 := by
    rcases Nat.le_total ri 300 with h2 | h2
    · have : ri * 1000 ≤ 300000 := by omega
      rw [Nat.max_eq_left this, Nat.max_eq_left h2]
    · have : 300000 ≤ ri * 1000 := by omega
      rw [Nat.max_eq_right this, Nat.max_eq_right h2]
  simp [setupPeriodicRefresh, hb, hmax]

/-- C7 witness: at `refreshInterval = 60` the hypothesis holds and the
effective period is 300000 ms. -/
theorem setupPeriodicRefresh_clamped_witness :
    (60 : Nat) ≠ 0 ∧
    (setupPeriodicRefresh 0 = Option.none ∧
     setupPeriodicRefresh 60 = some (max 300 60 * 1000) ∧
     setupPeriodicRefresh 60 = some 300000) :=
  ⟨by decide, setupPeriodicRefresh_clamped 60 (by decide)⟩

/-! ### Claim C8: blocker delivery policy -/

/-- C8: `handleNotification` shows the blocker modal exactly for blocker
level, schedules the inbox insertion in every case, with delay 0 for
blockers (regardless of `toastAlert`), delay `toastDuration * 1000` for
non-blockers with toasts enabled, and delay 0 otherwise; a toast is shown
exactly for non-blockers with `toastAlert` on, and the scheduled insertion
goes through `addToNotiphyCenter`, which increments the total counter. -/
theorem handleNotification_policy (toastAlert : Bool) (toastDuration : Nat)
    (n : Notification) :
    (handleNotification toastAlert toastDuration n).inboxScheduled = true ∧
    (handleNotification toastAlert toastDuration n).modalShown =
      decide (n.alertLevel = AlertLevel.blocker) ∧
    (handleNotification toastAlert toastDuration n).inboxDelayMs =
      (if n.alertLevel = AlertLevel.blocker then 0
       else if toastAlert then toastDuration * 1000 else 0) ∧
    (handleNotification toastAlert toastDuration n).toastShown =
      (if n.alertLevel = AlertLevel.blocker then false else toastAlert) ∧
    ∀ s : StoreState, (addToNotiphyCenter s n).total = s.total + 1 := by
  by_cases hb : n.alertLevel = AlertLevel.blocker <;>
    cases toastAlert <;>
      simp [handleNotification, addToNotiphyCenter, hb]

/-! ### Claim C3: two-phase mark-read / dismiss -/

/-- C3 counterexample: with a failing backend call, `markRead` still marks
the DOM element read and decrements the unread counter, because those
mutations happen before the fetch; so the claimed "no local mutation on
failure" is false for `markRead`. -/
theorem markRead_failure_mutates :
    markRead false
      { domReadMarked := false, domRemoved := false, unread := 1, total := 1,
        cacheReadFlag := false, cacheRemoved := false,
        emittedMarkRead := false, emittedDismiss := false } ≠
      { domReadMarked := false, domRemoved := false, unread := 1, total := 1,
        cacheReadFlag := false, cacheRemoved := false,
        emittedMarkRead := false, emittedDismiss := false } := by
  decide

/-- C3 (amended): `dismissNotification` is two-phase — a failing backend call
leaves the state completely unchanged, and a successful one removes the DOM
element, updates the cache, and emits the realtime event.  `markRead`
instead marks the DOM element read and decrements the unread counter
(clamped) before the backend call, and only persists the cache read flag
and emits the realtime event upon success; on failure those two stay
unchanged while the DOM/counter mutations remain. -/
theorem twoPhase_actions (s : ActionState) (wasRead : Bool) :
    dismissNotification false wasRead s = s ∧
    (markRead false s).cacheReadFlag = s.cacheReadFlag ∧
    (markRead false s).emittedMarkRead = s.emittedMarkRead ∧
    (markRead false s).domReadMarked = true ∧
    (markRead false s).unread = max 0 (s.unread - 1) ∧
    (markRead true s).cacheReadFlag = true ∧
    (markRead true s).emittedMarkRead = true ∧
    (markRead true s).domReadMarked = true ∧
    (markRead true s).unread = max 0 (s.unread - 1) ∧
    (dismissNotification true wasRead s).domRemoved = true ∧
    (dismissNotification true wasRead s).cacheRemoved = true ∧
    (dismissNotification true wasRead s).emittedDismiss = true := by
  simp [markRead, dismissNotification]

/-! ### Claim C4: fetch failure path -/

/-- C4 counterexample: when the widget is already offline (socket exists,
disconnected) and a fetch returns a non-success status, the failure path
calls `toggleConnection`, which *connects* — the connection indicator is not
forced to the offline state as claimed. -/
theorem fetchFailurePath_reconnects :
    (fetchFailurePath 0
      { store := { notifs := [], unread := 0, total := 0 },
        socket := some false, audioReminder := false,
        fetchCount := 0, crashed := false }).socket = some true := by
  decide

/-- C4 (amended): on a non-success HTTP status the failure path adds exactly
one synthesized error-level notification titled "Notiphy.me API Key Error"
to the center (incrementing both counters) without issuing another fetch,
*toggles* the connection (disconnecting when connected, connecting when
disconnected; a no-op that skips the audio-reminder disable when the socket
does not exist yet, because the toggle throws first), disables audio
reminders whenever the socket exists, and never lets the error escape the
widget. -/
theorem fetchFailurePath_behavior (now : Nat) (s : SyncState) :
    (fetchFailurePath now s).store.notifs = errorNotification now :: s.store.notifs ∧
    (fetchFailurePath now s).store.total = s.store.total + 1 ∧
    (fetchFailurePath now s).store.unread = s.store.unread + 1 ∧
    (errorNotification now).title = "Notiphy.me API Key Error" ∧
    (errorNotification now).alertLevel = AlertLevel.error ∧
    (fetchFailurePath now s).fetchCount = s.fetchCount ∧
    (fetchFailurePath now s).socket = s.socket.map (fun c => !c) ∧
    (fetchFailurePath now s).audioReminder =
      (match s.socket with
       | Option.none => s.audioReminder
       | some _ => false) ∧
    (fetchFailurePath now s).crashed = false := by
  cases hs : s.socket with
  | none =>
      simp [fetchFailurePath, addToNotiphyCenter, errorNotification, hs]
  | some c =>
      cases hr : s.audioReminder <;>
        simp [fetchFailurePath, addToNotiphyCenter, errorNotification, hs, hr]

/-! ### Claim C10: settings persisted before validation -/

/-- C10: the constructor persists the resolved configuration to the durable
settings blob unconditionally — the save happens before the
`subscriberId`/`widgetKey` validation, so even a rejected initialization
(configError) leaves the merged settings stored. -/
theorem constructor_saves_settings (st : Storage) (caller : CallerConfig) :
    (notiphyConstructor st caller).storageAfter.settings =
      some (resolvedConfig st caller) ∧
    (notiphyConstructor st caller).config = resolvedConfig st caller := by
  unfold notiphyConstructor
  dsimp only
  constructor <;> (split <;> (try split) <;> simp [saveSettings])

/-! ### Shared constructor lemmas -/

/-- Replacing `locationId` with itself is the identity. -/
lemma widgetConfig_set_self (c : WidgetConfig) :
    { c with locationId := c.locationId } = c := rfl

/-- The constructor's resolved configuration is `resolvedConfig` in every
branch. -/
lemma notiphyConstructor_config (st : Storage) (caller : CallerConfig) :
    (notiphyConstructor st caller).config = resolvedConfig st caller := by
  unfold notiphyConstructor
  dsimp only
  split <;> (try split) <;> rfl

/-- The constructor's final storage in every branch: cleared on a location
change, then the resolved configuration saved. -/
lemma notiphyConstructor_storageAfter (st : Storage) (caller : CallerConfig) :
    (notiphyConstructor st caller).storageAfter =
      saveSettings
        (if checkLocationChange st.settings (resolvedConfig st caller) then
          clearStoredData st
        else st)
        (resolvedConfig st caller) := by
  unfold notiphyConstructor
  dsimp only
  split <;> (try split) <;> rfl

/-- With stored settings present, the resolved configuration is the stored
one with `locationId` taken from the caller's invocation. -/
lemma resolvedConfig_of_stored (st : Storage) (caller : CallerConfig)
    (s : WidgetConfig) (hs : st.settings = some s) :
    resolvedConfig st caller =
      { s with locationId := (mergeConfig defaultConfig caller).locationId } := by
  unfold resolvedConfig loadSettings
  simp only [hs]
  split
  · rfl
  · rename_i h
    have heq : (mergeConfig defaultConfig caller).locationId = s.locationId := by
      simpa using h
    simp only [Option.getD_some]
    rw [heq]

/-! ### Claim C5: persisted-settings precedence and location change -/

/-- C5: with persisted settings present, the resolved configuration is the
persisted blob with every field kept except `locationId`, which comes from
the caller's current invocation; when the persisted `locationId` differs
from the caller's, the session cache and the last-fetched watermark are
cleared (during construction, hence before the first fetch) while the
durable settings blob is re-saved with only `locationId` changed. -/
theorem settings_precedence (st : Storage) (caller : CallerConfig)
    (s : WidgetConfig) (hs : st.settings = some s) :
    (notiphyConstructor st caller).config =
      { s with locationId := (mergeConfig defaultConfig caller).locationId } ∧
    (notiphyConstructor st caller).config.locationId =
      (mergeConfig defaultConfig caller).locationId ∧
    (s.locationId ≠ (mergeConfig defaultConfig caller).locationId →
      (notiphyConstructor st caller).storageAfter.cache = Option.none ∧
      (notiphyConstructor st caller).storageAfter.lastFetched = Option.none) ∧
    (notiphyConstructor st caller).storageAfter.settings =
      some ((notiphyConstructor st caller).config) := by
  have hres := resolvedConfig_of_stored st caller s hs
  refine ⟨?_, ?_, ?_, ?_⟩
  · rw [notiphyConstructor_config, hres]
  · rw [notiphyConstructor_config, hres]
  · intro hneq
    have hclc : checkLocationChange st.settings (resolvedConfig st caller) = true := by
      rw [hs, hres]
      unfold checkLocationChange
      simp only [bne_iff_ne]
      exact fun h => hneq h.symm
    rw [notiphyConstructor_storageAfter, hclc]
    simp [saveSettings, clearStoredData]
  · rw [notiphyConstructor_storageAfter, notiphyConstructor_config]
    rfl

/-- C5 witness data: persisted settings at location "locA", caller invoking
with location "locB". -/
def emptyCaller : CallerConfig :=
  { serviceUrl := Option.none, subscriberId := Option.none
    widgetKey := Option.none, locationId := Option.none
    widgetTitle := Option.none, audioAlert := Option.none
    audioReminder := Option.none, reminderInterval := Option.none
    toastAlert := Option.none, toastPosition := Option.none
    toastDuration := Option.none, width := Option.none
    height := Option.none, showInboxOnLoad := Option.none
    refreshInterval := Option.none, branded := Option.none
    compact := Option.none, targetElement := Option.none }

def c5Stored : WidgetConfig :=
  { defaultConfig with
      locationId := "locA"
      subscriberId := some "sub-1"
      widgetKey := some "key-1"
      audioAlert := true }

def c5Caller : CallerConfig :=
  { emptyCaller with
      locationId := some "locB"
      subscriberId := some "sub-1"
      widgetKey := some "key-1" }

def c5Storage : Storage :=
  { settings := some c5Stored, cache := some [], lastFetched := some 5 }

/-- C5 witness: the hypothesis holds for the concrete storage and caller, and
the theorem applies. -/
theorem settings_precedence_witness :
    c5Storage.settings = some c5Stored ∧
    ((notiphyConstructor c5Storage c5Caller).config =
      { c5Stored with
          locationId := (mergeConfig defaultConfig c5Caller).locationId } ∧
     (notiphyConstructor c5Storage c5Caller).config.locationId =
      (mergeConfig defaultConfig c5Caller).locationId ∧
     (c5Stored.locationId ≠ (mergeConfig defaultConfig c5Caller).locationId →
      (notiphyConstructor c5Storage c5Caller).storageAfter.cache = Option.none ∧
      (notiphyConstructor c5Storage c5Caller).storageAfter.lastFetched =
        Option.none) ∧
     (notiphyConstructor c5Storage c5Caller).storageAfter.settings =
      some ((notiphyConstructor c5Storage c5Caller).config)) :=
  ⟨rfl, settings_precedence c5Storage c5Caller c5Stored rfl⟩

/-! ### Claim C6: missing required fields -/

/-- C6: when the resolved configuration's `subscriberId` or `widgetKey` is
falsy (absent or the empty string), the constructor reports a configuration
error without throwing, and creates no DOM elements, starts no timers, and
issues no fetch. -/
theorem constructor_missing_required (st : Storage) (caller : CallerConfig)
    (h : isAbsent (resolvedConfig st caller).subscriberId = true ∨
         isAbsent (resolvedConfig st caller).widgetKey = true) :
    (notiphyConstructor st caller).configError = true ∧
    (notiphyConstructor st caller).domCreated = false ∧
    (notiphyConstructor st caller).refreshTimerStarted = false ∧
    (notiphyConstructor st caller).reminderTimerStarted = false ∧
    (notiphyConstructor st caller).fetchIssued = false ∧
    (notiphyConstructor st caller).threw = false := by
  unfold notiphyConstructor
  dsimp only
  rcases h with h | h
  · simp [h]
  · by_cases h1 : isAbsent (resolvedConfig st caller).subscriberId = true
    · simp [h1]
    · simp [h1, h]

/-- C6 witness: a caller that supplies no `subscriberId`. -/
theorem constructor_missing_required_witness :
    (isAbsent
        (resolvedConfig
          { settings := Option.none, cache := Option.none,
            lastFetched := Option.none } emptyCaller).subscriberId = true ∨
     isAbsent
        (resolvedConfig
          { settings := Option.none, cache := Option.none,
            lastFetched := Option.none } emptyCaller).widgetKey = true) ∧
    ((notiphyConstructor
        { settings := Option.none, cache := Option.none,
          lastFetched := Option.none } emptyCaller).configError = true ∧
     (notiphyConstructor
        { settings := Option.none, cache := Option.none,
          lastFetched := Option.none } emptyCaller).domCreated = false ∧
     (notiphyConstructor
        { settings := Option.none, cache := Option.none,
          lastFetched := Option.none } emptyCaller).refreshTimerStarted = false ∧
     (notiphyConstructor
        { settings := Option.none, cache := Option.none,
          lastFetched := Option.none } emptyCaller).reminderTimerStarted = false ∧
     (notiphyConstructor
        { settings := Option.none, cache := Option.none,
          lastFetched := Option.none } emptyCaller).fetchIssued = false ∧
     (notiphyConstructor
        { settings := Option.none, cache := Option.none,
          lastFetched := Option.none } emptyCaller).threw = false) :=
  ⟨Or.inl (by decide), constructor_missing_required _ _ (Or.inl (by decide))⟩

/-! ### Claim C9: counters rebuilt from scratch after a successful fetch -/

/-- Unread count of a cons cell. -/
lemma countUnread_cons (n : Notification) (l : List Notification) :
    countUnread (n :: l) = (if n.read then 0 else 1) + countUnread l := by
  cases h : n.read
  · simp [countUnread, List.filter_cons, h, Nat.add_comm]
  · simp [countUnread, List.filter_cons, h]

/-- Folding `addToNotiphyCenter` over a list adds its length to the total
counter, its unread count to the unread counter, and prepends the reversed
list to the center body. -/
lemma foldl_addToNotiphyCenter (l : List Notification) :
    ∀ s : StoreState,
      (l.foldl addToNotiphyCenter s).total = s.total + (l.length : Int) ∧
      (l.foldl addToNotiphyCenter s).unread = s.unread + (countUnread l : Int) ∧
      (l.foldl addToNotiphyCenter s).notifs = l.reverse ++ s.notifs := by
  induction l with
  | nil => intro s; simp [countUnread]
  | cons n t ih =>
      intro s
      obtain ⟨h1, h2, h3⟩ := ih (addToNotiphyCenter s n)
      refine ⟨?_, ?_, ?_⟩
      · rw [List.foldl_cons, h1]
        simp [addToNotiphyCenter]
        ring
      · rw [List.foldl_cons, h2, countUnread_cons]
        cases hr : n.read
        · simp [addToNotiphyCenter, hr]
          ring
        · simp [addToNotiphyCenter, hr]
      · rw [List.foldl_cons, h3]
        simp [addToNotiphyCenter]

/-- C9: immediately after a successful fetch-and-merge, the rebuilt state has
`totalCount` equal to the size of the merged set and `unreadCount` equal to
its number of unread entries, and the result does not depend on whatever the
counters showed before the fetch. -/
theorem fetch_rebuilds_counters (prior : StoreState)
    (localNotifications fetchedNotifications : List Notification) :
    (fetchNotificationsSuccess prior localNotifications fetchedNotifications).total =
      ((mergeNotifications localNotifications fetchedNotifications).length : Int) ∧
    (fetchNotificationsSuccess prior localNotifications fetchedNotifications).unread =
      ((countUnread (mergeNotifications localNotifications fetchedNotifications) : Nat) : Int) ∧
    (fetchNotificationsSuccess prior localNotifications fetchedNotifications).notifs =
      (mergeNotifications localNotifications fetchedNotifications).reverse ∧
    ∀ prior2 : StoreState,
      fetchNotificationsSuccess prior localNotifications fetchedNotifications =
        fetchNotificationsSuccess prior2 localNotifications fetchedNotifications := by
  obtain ⟨h1, h2, h3⟩ :=
    foldl_addToNotiphyCenter (mergeNotifications localNotifications fetchedNotifications)
      { prior with notifs := [], unread := 0, total := 0 }
  exact ⟨by simpa using h1, by simpa using h2, by simpa using h3, fun prior2 => rfl⟩

/-! ### Claim C2: merge logic -/

/-- `Map.set` on a key absent from the map appends. -/
lemma msetById_of_id_not_mem (m : List Notification) (n : Notification)
    (h : ∀ x ∈ m, x.id ≠ n.id) : msetById m n = m ++ [n] := by
  induction m with
  | nil => rfl
  | cons e rest ih =>
      have he : e.id ≠ n.id := h e (List.mem_cons_self e rest)
      have hb : (e.id == n.id) = false := by simpa using he
      simp only [msetById, hb, Bool.false_eq_true, if_false, List.cons_append,
        List.cons.injEq, true_and]
      exact ih fun x hx => h x (List.mem_cons_of_mem e hx)

/-- Building the map from a list with pairwise distinct ids keeps the list
as it is. -/
lemma foldl_msetById_of_nodup (l : List Notification) :
    ∀ acc : List Notification,
      (((acc ++ l).map (fun x => x.id)).Nodup) →
      l.foldl msetById acc = acc ++ l := by
  induction l with
  | nil => intro acc _; simp
  | cons n t ih =>
      intro acc h
      have hn : ∀ x ∈ acc, x.id ≠ n.id := by
        intro x hx hEq
        rw [List.map_append, List.nodup_append] at h
        obtain ⟨_, _, hdisj⟩ := h
        exact hdisj (List.mem_map_of_mem _ hx) (by simp [hEq])
      rw [List.foldl_cons, msetById_of_id_not_mem acc n hn]
      have h2 : (((acc ++ [n]) ++ t).map (fun x => x.id)).Nodup := by
        have hre : (acc ++ [n]) ++ t = acc ++ n :: t := by simp
        rw [hre]
        exact h
      rw [ih (acc ++ [n]) h2]
      simp

/-- Members of the map after a `Map.set` come from the map or are the new
entry. -/
lemma mem_msetById (m : List Notification) (n x : Notification)
    (hx : x ∈ msetById m n) : x ∈ m ∨ x = n := by
  induction m with
  | nil =>
      right
      simpa [msetById] using hx
  | cons e rest ih =>
      by_cases hb : (e.id == n.id) = true
      · simp only [msetById, hb, if_true] at hx
        rcases List.mem_cons.mp hx with h | h
        · right; exact h
        · left; exact List.mem_cons_of_mem e h
      · simp only [msetById, hb, Bool.false_eq_true, if_false] at hx
        rcases List.mem_cons.mp hx with h | h
        · left; rw [h]; exact List.mem_cons_self e rest
        · rcases ih h with h2 | h2
          · left; exact List.mem_cons_of_mem e h2
          · right; exact h2

/-- Members of the map after a `Map.delete` come from the map and miss the
deleted key. -/
lemma mem_mdelById (m : List Notification) (i : Nat) (x : Notification)
    (hx : x ∈ mdelById m i) : x ∈ m ∧ x.id ≠ i := by
  unfold mdelById at hx
  rw [List.mem_filter] at hx
  exact ⟨hx.1, by simpa using hx.2⟩

/-- When every fetched entry carrying the id is dismissed, and either some
fetched entry carries the id or the map does not, the folded map contains no
entry with the id. -/
lemma foldl_fetchMergeStep_no_id (i : Nat) :
    ∀ (remote m : List Notification),
      (∀ r ∈ remote, r.id = i → r.dismissed = true) →
      ((∃ r ∈ remote, r.id = i) ∨ (∀ x ∈ m, x.id ≠ i)) →
      ∀ x ∈ remote.foldl fetchMergeStep m, x.id ≠ i := by
  intro remote
  induction remote with
  | nil =>
      intro m _ hd x hx
      rcases hd with ⟨r, hr, _⟩ | hm
      · exact absurd hr (List.not_mem_nil r)
      · exact hm x (by simpa using hx)
  | cons r t ih =>
      intro m hall hd x hx
      rw [List.foldl_cons] at hx
      have hallt : ∀ r2 ∈ t, r2.id = i → r2.dismissed = true :=
        fun r2 hr2 => hall r2 (List.mem_cons_of_mem r hr2)
      by_cases hri : r.id = i
      · have hrd : r.dismissed = true := hall r (List.mem_cons_self r t) hri
        have hnone : ∀ y ∈ fetchMergeStep m r, y.id ≠ i := by
          intro y hy
          simp only [fetchMergeStep, hrd, if_true] at hy
          have := (mem_mdelById m r.id y hy).2
          rw [hri] at this
          exact this
        exact ih (fetchMergeStep m r) hallt (Or.inr hnone) x hx
      · rcases hd with ⟨r2, hr2, hr2i⟩ | hm
        · rcases List.mem_cons.mp hr2 with h | h
          · rw [h] at hr2i
            exact absurd hr2i hri
          · exact ih (fetchMergeStep m r) hallt (Or.inl ⟨r2, h, hr2i⟩) x hx
        · have hm2 : ∀ y ∈ fetchMergeStep m r, y.id ≠ i := by
            intro y hy
            unfold fetchMergeStep at hy
            by_cases hrd : r.dismissed = true
            · simp only [hrd, if_true] at hy
              exact hm y (mem_mdelById m r.id y hy).1
            · rw [if_neg hrd] at hy
              rcases mem_msetById m r y hy with h | h
              · exact hm y h
              · rw [h]; exact hri
          exact ih (fetchMergeStep m r) hallt (Or.inr hm2) x hx

/-- After a `Map.set`, looking up the new entry's key yields the new
entry. -/
lemma lookupById_msetById (m : List Notification) (n : Notification) :
    lookupById (msetById m n) n.id = some n := by
  induction m with
  | nil => simp [msetById, lookupById]
  | cons e rest ih =>
      by_cases hb : (e.id == n.id) = true
      · simp [msetById, hb, lookupById]
      · simp [msetById, hb, lookupById, ih]

/-- C2: the merge of `fetchNotifications` leaves a duplicate-free local cache
unchanged when the fetched list is empty; removes an id from the result
whenever the fetched list carries a dismissed entry for it (and no other
entry re-adding it); and a non-dismissed fetched entry replaces any local
entry with the same id (remote wins). -/
theorem mergeNotifications_spec
    (localNotifications fetchedNotifications : List Notification)
    (i : Nat) (e : Notification)
    (hnd : (localNotifications.map (fun x => x.id)).Nodup)
    (hall : ∀ r ∈ fetchedNotifications, r.id = i → r.dismissed = true)
    (hex : ∃ r ∈ fetchedNotifications, r.id = i)
    (he : e.dismissed = false) :
    mergeNotifications localNotifications [] = localNotifications ∧
    (∀ x ∈ mergeNotifications localNotifications fetchedNotifications,
        x.id ≠ i) ∧
    lookupById (mergeNotifications localNotifications [e]) e.id = some e := by
  refine ⟨?_, ?_, ?_⟩
  · unfold mergeNotifications buildLocalMap
    rw [List.foldl_nil]
    have := foldl_msetById_of_nodup localNotifications [] (by simpa using hnd)
    simpa using this
  · exact foldl_fetchMergeStep_no_id i fetchedNotifications _ hall (Or.inl hex)
  · unfold mergeNotifications
    rw [List.foldl_cons, List.foldl_nil]
    simp only [fetchMergeStep, he, Bool.false_eq_true, if_false]
    exact lookupById_msetById _ e

/-- C2 witness data. -/
def c2n1 : Notification :=
  { id := 1, title := "a", text := "", alertLevel := AlertLevel.info,
    read := false, dismissed := false, actionUrl := Option.none, ts := 0 }

def c2n2 : Notification :=
  { c2n1 with id := 2, title := "b" }

def c2dismiss2 : Notification :=
  { c2n1 with id := 2, dismissed := true }

def c2remote1 : Notification :=
  { c2n1 with title := "server", read := true }

/-- C2 witness: two distinct cached notifications, a fetched dismissal of id
2, and a fetched replacement for id 1. -/
theorem mergeNotifications_spec_witness :
    (([c2n1, c2n2].map (fun x => x.id)).Nodup ∧
     (∀ r ∈ [c2dismiss2], r.id = 2 → r.dismissed = true) ∧
     (∃ r ∈ [c2dismiss2], r.id = 2) ∧
     c2remote1.dismissed = false) ∧
    (mergeNotifications [c2n1, c2n2] [] = [c2n1, c2n2] ∧
     (∀ x ∈ mergeNotifications [c2n1, c2n2] [c2dismiss2], x.id ≠ 2) ∧
     lookupById (mergeNotifications [c2n1, c2n2] [c2remote1]) c2remote1.id =
       some c2remote1) :=
  ⟨⟨by decide, by decide, by decide, by decide⟩,
   mergeNotifications_spec [c2n1, c2n2] [c2dismiss2] 2 c2remote1
     (by decide) (by decide) (by decide) (by decide)⟩

/-! ### Claim C1: counter invariants under store mutations -/

/-- The invariant the specification claims: counters derived from the center
body, with pairwise distinct ids as auxiliary strengthening. -/
def StoreInv (s : StoreState) : Prop :=
  ((s.notifs.map (fun x => x.id)).Nodup) ∧
  s.total = (s.notifs.length : Int) ∧
  s.unread = ((countUnread s.notifs : Nat) : Int)

/-- The state `handleDismissedNotification` produces when an element with
the id exists. -/
lemma handleDismissed_eq (s : StoreState) (i : Nat) (e : Notification)
    (hf : s.notifs.find? (fun x => x.id == i) = some e) :
    handleDismissedNotification s i =
      { notifs := s.notifs.filter (fun x => x.id != i)
        unread := if e.read then s.unread else max 0 (s.unread - 1)
        total := max 0 (s.total - 1) } := by
  unfold handleDismissedNotification findById
  rw [hf]
  cases hr : e.read <;> simp [updateStatsAfterDismissal, hr]

/-- The state `handleMarkedReadNotification` produces when an element with
the id exists. -/
lemma handleMarkedRead_eq (s : StoreState) (i : Nat) (e : Notification)
    (hf : s.notifs.find? (fun x => x.id == i) = some e) :
    handleMarkedReadNotification s i =
      { notifs := markFirstRead s.notifs i
        unread := if e.read then s.unread else max 0 (s.unread - 1)
        total := s.total } := by
  unfold handleMarkedReadNotification findById
  rw [hf]
  cases hr : e.read <;> simp [updateStatsAfterMarkRead, hr]

/-- Filtering out the id of one member of a duplicate-free list removes
exactly that member, for both length and unread count. -/
lemma countUnread_filter_out (l : List Notification) (e : Notification)
    (hnd : (l.map (fun x => x.id)).Nodup) (he : e ∈ l) :
    ((l.filter (fun x => x.id != e.id)).length + 1 = l.length) ∧
    (countUnread (l.filter (fun x => x.id != e.id)) +
        (if e.read then 0 else 1) = countUnread l) := by
  induction l with
  | nil => cases he
  | cons h t ih =>
      have hnd2 := hnd
      rw [List.map_cons, List.nodup_cons] at hnd2
      obtain ⟨hhead, htail⟩ := hnd2
      rcases List.mem_cons.mp he with hh | ht2
      · subst hh
        have hfix : t.filter (fun x => x.id != e.id) = t := by
          apply List.filter_eq_self.mpr
          intro x hx
          rw [bne_iff_ne]
          intro hEq
          exact hhead (by rw [← hEq]; exact List.mem_map_of_mem _ hx)
        have hhid : (e.id != e.id) = false := by simp
        constructor
        · simp [List.filter_cons, hhid, hfix]
        · rw [countUnread_cons]
          cases hr : e.read
          · simp [List.filter_cons, hhid, hfix, hr]
            omega
          · simp [List.filter_cons, hhid, hfix, hr]
      · have hhe : h.id ≠ e.id := by
          intro hEq
          exact hhead (by rw [hEq]; exact List.mem_map_of_mem _ ht2)
        have hb : (h.id != e.id) = true := by simpa using hhe
        obtain ⟨ih1, ih2⟩ := ih htail ht2
        constructor
        · simp only [List.filter_cons, hb, if_true, List.length_cons]
          omega
        · rw [countUnread_cons]
          simp only [List.filter_cons, hb, if_true, countUnread_cons]
          omega

/-- Filtering preserves distinctness of ids. -/
lemma nodup_filter_ids (l : List Notification) (p : Notification → Bool)
    (hnd : (l.map (fun x => x.id)).Nodup) :
    (((l.filter p).map (fun x => x.id)).Nodup) :=
  List.Nodup.sublist ((List.filter_sublist l).map _) hnd

/-- `markFirstRead` keeps the id sequence. -/
lemma markFirstRead_map_id (l : List Notification) (i : Nat) :
    (markFirstRead l i).map (fun x => x.id) = l.map (fun x => x.id) := by
  induction l with
  | nil => rfl
  | cons e rest ih =>
      by_cases hb : (e.id == i) = true
      · simp [markFirstRead, hb]
      · simp [markFirstRead, hb, ih]

/-- `markFirstRead` keeps the length. -/
lemma markFirstRead_length (l : List Notification) (i : Nat) :
    (markFirstRead l i).length = l.length := by
  have := congrArg List.length (markFirstRead_map_id l i)
  simpa using this

/-- Re-marking an already-read entry is the identity on the record. -/
lemma set_read_self (e : Notification) (hr : e.read = true) :
    { e with read := true } = e := by
  cases e
  simp_all

/-- When the first entry with the id is already read, `markFirstRead`
changes nothing. -/
lemma markFirstRead_of_read (l : List Notification) (i : Nat) (e : Notification)
    (hf : l.find? (fun x => x.id == i) = some e) (hr : e.read = true) :
    markFirstRead l i = l := by
  induction l with
  | nil => simp at hf
  | cons h t ih =>
      by_cases hb : (h.id == i) = true
      · have hhe : h = e := by
          simp only [List.find?_cons, hb] at hf
          exact Option.some.inj hf
        unfold markFirstRead
        rw [if_pos hb, hhe, set_read_self e hr]
      · have hbf : (h.id == i) = false := by simpa using hb
        simp only [List.find?_cons, hbf] at hf
        unfold markFirstRead
        rw [if_neg hb, ih hf]

/-- When the first entry with the id is unread, `markFirstRead` lowers the
unread count by exactly one. -/
lemma markFirstRead_countUnread (l : List Notification) (i : Nat)
    (e : Notification) (hf : l.find? (fun x => x.id == i) = some e)
    (hr : e.read = false) :
    countUnread (markFirstRead l i) + 1 = countUnread l := by
  induction l with
  | nil => simp at hf
  | cons h t ih =>
      by_cases hb : (h.id == i) = true
      · have hhe : h = e := by
          simp only [List.find?_cons, hb] at hf
          exact Option.some.inj hf
        unfold markFirstRead
        rw [if_pos hb]
        rw [countUnread_cons, countUnread_cons]
        have hrh : h.read = false := by rw [hhe]; exact hr
        simp [hrh]
        omega
      · have hbf : (h.id == i) = false := by simpa using hb
        simp only [List.find?_cons, hbf] at hf
        unfold markFirstRead
        rw [if_neg hb]
        rw [countUnread_cons, countUnread_cons]
        have := ih hf
        omega

/-- A fresh `addToNotiphyCenter` preserves the invariant. -/
lemma addToNotiphyCenter_inv (s : StoreState) (n : Notification)
    (h : StoreInv s)
    (hfresh : s.notifs.any (fun x => x.id == n.id) = false) :
    StoreInv (addToNotiphyCenter s n) := by
  obtain ⟨hnd, ht, hu⟩ := h
  have hnotmem : n.id ∉ s.notifs.map (fun x => x.id) := by
    intro hm
    simp only [List.mem_map] at hm
    obtain ⟨x, hx, hxid⟩ := hm
    rw [List.any_eq_false] at hfresh
    have h2 := hfresh x hx
    simp [hxid] at h2
  have hn : (addToNotiphyCenter s n).notifs = n :: s.notifs := rfl
  refine ⟨?_, ?_, ?_⟩
  · rw [hn, List.map_cons, List.nodup_cons]
    exact ⟨hnotmem, hnd⟩
  · show s.total + 1 = ((n :: s.notifs).length : Int)
    rw [ht]
    push_cast [List.length_cons]
    ring
  · rw [hn, countUnread_cons]
    cases hr : n.read
    · have e1 : (addToNotiphyCenter s n).unread = s.unread + 1 := by
        simp [addToNotiphyCenter, hr]
      rw [e1, hu, if_neg (show ¬(false = true) by decide)]
      push_cast
      ring
    · have e1 : (addToNotiphyCenter s n).unread = s.unread := by
        simp [addToNotiphyCenter, hr]
      rw [e1, hu, if_pos (show true = true from rfl)]
      push_cast
      ring

/-- `handleDismissedNotification` preserves the invariant. -/
lemma handleDismissed_inv (s : StoreState) (i : Nat) (h : StoreInv s) :
    StoreInv (handleDismissedNotification s i) := by
  obtain ⟨hnd, ht, hu⟩ := h
  cases hf : s.notifs.find? (fun x => x.id == i) with
  | none =>
      unfold handleDismissedNotification findById
      rw [hf]
      exact ⟨hnd, ht, hu⟩
  | some e =>
      have hmem : e ∈ s.notifs := List.mem_of_find?_eq_some hf
      have hei : e.id = i := by simpa using List.find?_some hf
      subst hei
      rw [handleDismissed_eq s e.id e hf]
      obtain ⟨hlen, hcnt⟩ := countUnread_filter_out s.notifs e hnd hmem
      have hpos : 0 < s.notifs.length := List.length_pos_of_mem hmem
      unfold StoreInv
      refine ⟨nodup_filter_ids _ _ hnd, ?_, ?_⟩
      · show max 0 (s.total - 1) =
          ((s.notifs.filter (fun x => x.id != e.id)).length : Int)
        rw [ht]
        have h0 : (0 : Int) ≤ (s.notifs.length : Int) - 1 := by omega
        rw [max_eq_right h0]
        omega
      · show (if e.read then s.unread else max 0 (s.unread - 1)) =
          ((countUnread (s.notifs.filter (fun x => x.id != e.id)) : Nat) : Int)
        cases hr : e.read
        · rw [if_neg (show ¬(false = true) by decide)]
          rw [hr] at hcnt
          simp only [Bool.false_eq_true, if_false] at hcnt
          rw [hu]
          have h1 : 1 ≤ countUnread s.notifs := by omega
          have h0 : (0 : Int) ≤ (countUnread s.notifs : Int) - 1 := by omega
          rw [max_eq_right h0]
          omega
        · rw [if_pos (show true = true from rfl)]
          rw [hr] at hcnt
          simp only [if_pos] at hcnt
          rw [hu]
          omega

/-- `handleMarkedReadNotification` preserves the invariant. -/
lemma handleMarkedRead_inv (s : StoreState) (i : Nat) (h : StoreInv s) :
    StoreInv (handleMarkedReadNotification s i) := by
  obtain ⟨hnd, ht, hu⟩ := h
  cases hf : s.notifs.find? (fun x => x.id == i) with
  | none =>
      unfold handleMarkedReadNotification findById
      rw [hf]
      exact ⟨hnd, ht, hu⟩
  | some e =>
      rw [handleMarkedRead_eq s i e hf]
      unfold StoreInv
      refine ⟨?_, ?_, ?_⟩
      · show ((markFirstRead s.notifs i).map (fun x => x.id)).Nodup
        rw [markFirstRead_map_id]
        exact hnd
      · show s.total = ((markFirstRead s.notifs i).length : Int)
        rw [markFirstRead_length]
        exact ht
      · show (if e.read then s.unread else max 0 (s.unread - 1)) =
          ((countUnread (markFirstRead s.notifs i) : Nat) : Int)
        cases hr : e.read
        · rw [if_neg (show ¬(false = true) by decide)]
          have hcnt := markFirstRead_countUnread s.notifs i e hf hr
          rw [hu]
          have h1 : 1 ≤ countUnread s.notifs := by omega
          have h0 : (0 : Int) ≤ (countUnread s.notifs : Int) - 1 := by omega
          rw [max_eq_right h0]
          omega
        · rw [if_pos (show true = true from rfl)]
          rw [markFirstRead_of_read s.notifs i e hf hr]
          exact hu

/-- A fresh run preserves the invariant. -/
lemma freshRun_inv (ops : List StoreOp) :
    ∀ s : StoreState, StoreInv s → freshRun s ops = true →
      StoreInv (runOps s ops) := by
  induction ops with
  | nil => intro s h _; exact h
  | cons op rest ih =>
      intro s h hfr
      cases op with
      | add n =>
          rw [freshRun, Bool.and_eq_true] at hfr
          obtain ⟨h1, h2⟩ := hfr
          have hany : s.notifs.any (fun x => x.id == n.id) = false := by
            simpa using h1
          show StoreInv ((StoreOp.add n :: rest).foldl applyOp s)
          rw [List.foldl_cons]
          exact ih (applyOp s (StoreOp.add n))
            (addToNotiphyCenter_inv s n h hany) h2
      | remove i =>
          rw [freshRun] at hfr
          show StoreInv ((StoreOp.remove i :: rest).foldl applyOp s)
          rw [List.foldl_cons]
          exact ih (applyOp s (StoreOp.remove i))
            (handleDismissed_inv s i h) hfr
      | markRead i =>
          rw [freshRun] at hfr
          show StoreInv ((StoreOp.markRead i :: rest).foldl applyOp s)
          rw [List.foldl_cons]
          exact ih (applyOp s (StoreOp.markRead i))
            (handleMarkedRead_inv s i h) hfr

/-- C1 counterexample data: an unread notification whose id is added
twice. -/
def c1dup : Notification :=
  { id := 1, title := "", text := "", alertLevel := AlertLevel.info,
    read := false, dismissed := false, actionUrl := Option.none, ts := 0 }

/-- C1 counterexample: the sequence add, add (same id), dismiss — a sequence
of the three store mutations starting from the empty store — ends with
`totalCount = 1` while the store holds 0 notifications, because the dismiss
removes every element with the id but decrements the counter once; so the
claimed invariant does not hold for *every* sequence. -/
theorem store_counters_invariant_counterexample :
    (runOps emptyStore
        [StoreOp.add c1dup, StoreOp.add c1dup, StoreOp.remove 1]).total ≠
      ((runOps emptyStore
        [StoreOp.add c1dup, StoreOp.add c1dup, StoreOp.remove 1]).notifs.length : Int) ∧
    (runOps emptyStore
        [StoreOp.add c1dup, StoreOp.add c1dup, StoreOp.remove 1]).unread ≠
      ((countUnread (runOps emptyStore
        [StoreOp.add c1dup, StoreOp.add c1dup, StoreOp.remove 1]).notifs : Nat) : Int) := by
  constructor <;> decide

/-- C1 (amended): for every sequence of add / remove (dismiss) / markRead
starting from the empty store in which every added notification carries an
id not currently present, the derived counters satisfy
`totalCount = store size`, `unreadCount = number of unread entries`, and
both are nonnegative; every decrement in the operations is clamped at
zero. -/
theorem store_counters_invariant (ops : List StoreOp)
    (h : freshRun emptyStore ops = true) :
    (runOps emptyStore ops).total =
      ((runOps emptyStore ops).notifs.length : Int) ∧
    (runOps emptyStore ops).unread =
      ((countUnread (runOps emptyStore ops).notifs : Nat) : Int) ∧
    0 ≤ (runOps emptyStore ops).unread ∧
    0 ≤ (runOps emptyStore ops).total := by
  have hinv := freshRun_inv ops emptyStore ⟨by simp [emptyStore], rfl, rfl⟩ h
  obtain ⟨_, ht, hu⟩ := hinv
  refine ⟨ht, hu, ?_, ?_⟩ <;> omega

/-- C1 witness data: two distinct notifications, one read transition, one
dismissal. -/
def c1ops : List StoreOp :=
  [StoreOp.add c1dup,
   StoreOp.add { c1dup with id := 2, read := true },
   StoreOp.markRead 1,
   StoreOp.remove 2]

/-- C1 witness: the freshness hypothesis holds for the concrete sequence and
the invariant follows. -/
theorem store_counters_invariant_witness :
    freshRun emptyStore c1ops = true ∧
    ((runOps emptyStore c1ops).total =
      ((runOps emptyStore c1ops).notifs.length : Int) ∧
     (runOps emptyStore c1ops).unread =
      ((countUnread (runOps emptyStore c1ops).notifs : Nat) : Int) ∧
     0 ≤ (runOps emptyStore c1ops).unread ∧
     0 ≤ (runOps emptyStore c1ops).total) :=
  ⟨by decide, store_counters_invariant c1ops (by decide)⟩

end Notiphy
